/-
  Verification of the agro-alert backend (market stress / shock simulation /
  market state engines) against its natural-language specification.

  The Python sources `src/backend/server.py` and `src/backend/market_state.py`
  are shallowly embedded below: prices, supplies and demands are modelled as
  exact real numbers (the source computes with IEEE floats; we use the ideal
  real semantics of the same formulas), arrivals and quantities as integers,
  and the process-wide mutable market state as an explicit `MarketState`
  value threaded through the operations.  Python's `round(x, n)` built-in is
  modelled by exact round-half-to-even, `int(x)` by truncation toward zero,
  and `str.lower()` by ASCII case folding (all names in the data are ASCII).
  Wall-clock timestamps are threaded as an explicit date argument.
-/
import Mathlib

/-! ## Python numeric primitives -/

/-- Python's `round` built-in: round half to even, returning an integer. -/
noncomputable def roundHalfEven (x : ℝ) : ℤ :=
  if x - ⌊x⌋ < 1/2 then ⌊x⌋
  else if 1/2 < x - ⌊x⌋ then ⌊x⌋ + 1
  else if Even ⌊x⌋ then ⌊x⌋ else ⌊x⌋ + 1

/-- Python `round(x, 2)`: round to 2 decimal places, half to even. -/
noncomputable def pyRound2 (x : ℝ) : ℝ := (roundHalfEven (x * 100) : ℝ) / 100

/-- Python `round(x, 0)`: round to 0 decimal places, half to even
(returns a float in Python, hence valued in `ℝ` here). -/
noncomputable def pyRound0 (x : ℝ) : ℝ := (roundHalfEven x : ℝ)

/-- Python `int(x)` on a float: truncation toward zero. -/
noncomputable def pyInt (x : ℝ) : ℤ := if 0 ≤ x then ⌊x⌋ else ⌈x⌉

/-- ASCII case folding of one character, modelling Python `str.lower()`
on the ASCII commodity names used throughout the data. -/
def lowerChar (c : Char) : Char :=
  if 'A' ≤ c ∧ c ≤ 'Z' then Char.ofNat (c.toNat + 32) else c

/-- Model of Python `str.lower()` (ASCII case folding). -/
def pyLower (s : String) : String := ⟨s.data.map lowerChar⟩

theorem roundHalfEven_intCast (n : ℤ) : roundHalfEven (n : ℝ) = n := by
  unfold roundHalfEven
  rw [Int.floor_intCast]
  simp

theorem roundHalfEven_eq_floor (x : ℝ) (h : x - ⌊x⌋ < 1/2) :
    roundHalfEven x = ⌊x⌋ := by
  unfold roundHalfEven
  rw [if_pos h]

theorem roundHalfEven_eq_floor_add_one (x : ℝ) (h : 1/2 < x - ⌊x⌋) :
    roundHalfEven x = ⌊x⌋ + 1 := by
  unfold roundHalfEven
  rw [if_neg (by linarith), if_pos h]

theorem sub_half_le_roundHalfEven (x : ℝ) : x - 1/2 ≤ (roundHalfEven x : ℝ) := by
  have hfl : (⌊x⌋ : ℝ) ≤ x := Int.floor_le x
  have hfu : x < ⌊x⌋ + 1 := Int.lt_floor_add_one x
  unfold roundHalfEven
  split
  · linarith
  · split
    · push_cast; linarith
    · split
      · linarith
      · push_cast; linarith

theorem roundHalfEven_le_add_half (x : ℝ) : (roundHalfEven x : ℝ) ≤ x + 1/2 := by
  have hfl : (⌊x⌋ : ℝ) ≤ x := Int.floor_le x
  unfold roundHalfEven
  split
  · linarith
  · split
    · push_cast; linarith
    · next h1 h2 =>
      have : x - ⌊x⌋ = 1/2 := le_antisymm (not_lt.mp h2) (not_lt.mp h1)
      split
      · linarith
      · push_cast; linarith

/-! ## Data model

Dict-shaped records of the Python source, as structures.  All numeric
fields present in `data/mandiData.json` are modelled as required fields;
the `.get(key, default)` fallbacks of the source therefore resolve to the
field itself. -/

structure PricePoint where
  date : String
  price : ℝ

structure ArrivalsPoint where
  date : String
  arrivals : ℤ

structure Commodity where
  name : String
  isPrimary : Bool
  currentPrice : ℝ
  previousPrice : ℝ
  arrivals : ℤ
  previousArrivals : ℤ
  baseDemand : ℝ
  baseSupply : ℝ
  volatility : ℝ

structure Mandi where
  id : String
  name : String
  commodity : String
  currentPrice : ℝ
  previousPrice : ℝ
  arrivals : ℤ
  previousArrivals : ℤ
  baseDemand : ℝ
  baseSupply : ℝ
  volatility : ℝ
  rainFlag : Bool
  festivalFlag : Bool
  commodities : List Commodity
  priceHistory : List PricePoint
  arrivalsHistory : List ArrivalsPoint
  connectedMandis : List String

/-! ## Stress Score Engine (src/backend/server.py lines 35-128) -/

/-- `VOLATILITY_THRESHOLD = 10.0` (server.py line 35). -/
def VOLATILITY_THRESHOLD : ℝ := 10.0

/-- `ELASTICITY = 0.4` (server.py line 36, market_state.py line 39). -/
def ELASTICITY : ℝ := 0.4

/-- `calculate_price_volatility` (server.py lines 41-48): population
standard deviation of the price-history prices, 0 for fewer than 2 points. -/
noncomputable def calculate_price_volatility (price_history : List PricePoint) : ℝ :=
  if price_history.length < 2 then 0.0
  else
    let prices := price_history.map (fun p => p.price)
    let mean := prices.sum / (prices.length : ℝ)
    let variance := (prices.map (fun p => (p - mean) ^ 2)).sum / (prices.length : ℝ)
    Real.sqrt variance

structure StressBreakdown where
  priceStress : ℤ
  supplyStress : ℤ
  instabilityStress : ℤ
  externalStress : ℤ

structure StressResult where
  stressScore : ℤ
  status : String
  volatility : ℝ
  priceChangePct : ℝ
  arrivalChangePct : ℝ
  stressBreakdown : StressBreakdown

/-- `calculate_stress_score` (server.py lines 50-128). -/
noncomputable def calculate_stress_score (mandi : Mandi) : StressResult :=
  let price_change_pct : ℝ :=
    if mandi.previousPrice > 0
    then (mandi.currentPrice - mandi.previousPrice) / mandi.previousPrice * 100
    else 0
  let arrival_change_pct : ℝ :=
    if (mandi.previousArrivals : ℝ) > 0
    then ((mandi.arrivals : ℝ) - (mandi.previousArrivals : ℝ)) / (mandi.previousArrivals : ℝ) * 100
    else 0
  let volatility := calculate_price_volatility mandi.priceHistory
  let price_stress : ℤ :=
    if price_change_pct > 8 then 35 else if price_change_pct > 4 then 20 else 0
  let supply_stress : ℤ :=
    if arrival_change_pct < -10 then 30 else if arrival_change_pct < -5 then 15 else 0
  let instability_stress : ℤ := if volatility > VOLATILITY_THRESHOLD then 20 else 0
  let external_stress : ℤ :=
    (if mandi.rainFlag then 10 else 0) + (if mandi.festivalFlag then 10 else 0)
  let stress : ℤ :=
    max 0 (min 100 (price_stress + supply_stress + instability_stress + external_stress))
  let status := if stress > 65 then "high_risk" else if stress > 35 then "watch" else "normal"
  { stressScore := stress
    status := status
    volatility := pyRound2 volatility
    priceChangePct := pyRound2 price_change_pct
    arrivalChangePct := pyRound2 arrival_change_pct
    stressBreakdown :=
      { priceStress := price_stress
        supplyStress := supply_stress
        instabilityStress := instability_stress
        externalStress := external_stress } }

/-! ## Shock Simulation Engine (src/backend/server.py lines 145-298)

The body of `simulate_shock` is split into named helper definitions, one
per labelled code fragment, and reassembled into the result record. -/

/-- `supply_reduction = intensity_factor * duration_factor * 0.4`
(server.py line 169). -/
noncomputable def supply_reduction_of (intensity duration : ℤ) : ℝ :=
  ((intensity : ℝ) / 100) * ((duration : ℝ) / 7) * 0.4

/-- `demand_increase = intensity_factor * duration_factor * 0.35`
(server.py line 174). -/
noncomputable def demand_increase_of (intensity duration : ℤ) : ℝ :=
  ((intensity : ℝ) / 100) * ((duration : ℝ) / 7) * 0.35

/-- `shock_type in ["rain", "supply_drop", "transport"]` (server.py line 167). -/
def isSupplyShock (shock_type : String) : Bool :=
  shock_type == "rain" || shock_type == "supply_drop" || shock_type == "transport"

/-- `new_supply` after the shock-type dispatch (server.py lines 163-178). -/
noncomputable def new_supply_of (target : Mandi) (shock_type : String) (intensity duration : ℤ) : ℝ :=
  if isSupplyShock shock_type
  then target.baseSupply * (1 - supply_reduction_of intensity duration)
  else target.baseSupply

/-- `new_demand` after the shock-type dispatch (server.py lines 163-178). -/
noncomputable def new_demand_of (target : Mandi) (shock_type : String) (intensity duration : ℤ) : ℝ :=
  if shock_type == "demand_spike"
  then target.baseDemand * (1 + demand_increase_of intensity duration)
  else target.baseDemand

/-- `new_arrivals` after the shock-type dispatch (server.py lines 167-178). -/
noncomputable def new_arrivals_of (target : Mandi) (shock_type : String) (intensity duration : ℤ) : ℤ :=
  if isSupplyShock shock_type
  then pyInt ((target.arrivals : ℝ) * (1 - supply_reduction_of intensity duration))
  else target.arrivals

/-- New price via the inline elasticity formula with the zero-supply cap
(server.py lines 180-187).  Unrounded; rounding happens only in the
response record. -/
noncomputable def new_price_of (target : Mandi) (shock_type : String) (intensity duration : ℤ) : ℝ :=
  if new_supply_of target shock_type intensity duration > 0
  then target.currentPrice *
    ((new_demand_of target shock_type intensity duration /
      new_supply_of target shock_type intensity duration) ^ ELASTICITY)
  else target.currentPrice * 2

/-- `price_impact_pct` (server.py line 189). -/
noncomputable def price_impact_pct_of (target : Mandi) (shock_type : String) (intensity duration : ℤ) : ℝ :=
  ((new_price_of target shock_type intensity duration - target.currentPrice) /
    target.currentPrice) * 100

/-- The hypothetical target snapshot used for the post-shock stress
computation (server.py lines 192-198). -/
noncomputable def simulated_target_of (target : Mandi) (shock_type : String) (intensity duration : ℤ) : Mandi :=
  { target with
    currentPrice := new_price_of target shock_type intensity duration
    arrivals := new_arrivals_of target shock_type intensity duration
    rainFlag := if shock_type == "rain" then true else target.rainFlag
    festivalFlag := if shock_type == "demand_spike" then true else target.festivalFlag }

/-- Projected price history (server.py lines 201-211): entries with index
`i < len - 2` are copied, later ones get the additive interpolation with
`progress = (i - (len - 3)) / 3`, rounded to 2 decimal places. -/
noncomputable def simulated_history_of (target : Mandi) (shock_type : String) (intensity duration : ℤ) : List PricePoint :=
  let n := target.priceHistory.length
  let np := new_price_of target shock_type intensity duration
  target.priceHistory.enum.map (fun p =>
    if (p.1 : ℤ) < (n : ℤ) - 2 then { date := p.2.date, price := p.2.price }
    else
      { date := p.2.date
        price := pyRound2 (p.2.price +
          (np - target.currentPrice) * (((p.1 : ℝ) - ((n : ℝ) - 3)) / 3)) })

/-- First-level neighbors: every market of `all_mandis` whose id occurs in
the target's `connectedMandis`, in loop order (server.py lines 221-224). -/
def first_level_of (target : Mandi) (all_mandis : List Mandi) : List Mandi :=
  target.connectedMandis.flatMap (fun cid => all_mandis.filter (fun m => m.id == cid))

/-- Second-level neighbor ids (server.py lines 225-228): ids connected to a
first-level neighbor, excluding the target's id and every id listed in the
target's `connectedMandis`; collected into a Python `set`, modelled as a
deduplicated list (the claims proved below do not depend on its order). -/
def second_level_ids_of (target : Mandi) (all_mandis : List Mandi) : List String :=
  (target.connectedMandis.flatMap (fun cid =>
    (all_mandis.filter (fun m => m.id == cid)).flatMap (fun m =>
      m.connectedMandis.filter (fun sid =>
        sid != target.id && !(target.connectedMandis.contains sid))))).dedup

structure AffectedMandi where
  mandiId : String
  mandiName : String
  priceChange : ℝ
  newPrice : ℝ
  originalPrice : ℝ
  newStressScore : ℤ
  previousStressScore : ℤ
  rippleLevel : ℕ

/-- One first-level ripple entry (server.py lines 231-251): 60% of the
price impact, applied multiplicatively; supply-type shocks also shrink the
neighbor's arrivals in the hypothetical stress snapshot. -/
noncomputable def level1_entry (shock_type : String) (intensity : ℤ) (price_impact_pct : ℝ)
    (neighbor : Mandi) : AffectedMandi :=
  let ripple_price_impact := price_impact_pct * 0.6
  let neighbor_new_price := neighbor.currentPrice * (1 + ripple_price_impact / 100)
  let simulated_neighbor : Mandi :=
    { neighbor with
      currentPrice := neighbor_new_price
      arrivals :=
        if isSupplyShock shock_type
        then pyInt ((neighbor.arrivals : ℝ) * (1 - ((intensity : ℝ) / 100) * 0.3 * 0.6))
        else neighbor.arrivals }
  { mandiId := neighbor.id
    mandiName := neighbor.name
    priceChange := pyRound2 ripple_price_impact
    newPrice := pyRound2 neighbor_new_price
    originalPrice := neighbor.currentPrice
    newStressScore := (calculate_stress_score simulated_neighbor).stressScore
    previousStressScore := (calculate_stress_score neighbor).stressScore
    rippleLevel := 1 }

/-- Second-level ripple entries for one collected id (server.py lines
254-273): 30% of the price impact, price only, arrivals untouched. -/
noncomputable def level2_entries (price_impact_pct : ℝ) (all_mandis : List Mandi)
    (second_id : String) : List AffectedMandi :=
  (all_mandis.filter (fun m => m.id == second_id)).map (fun m =>
    let ripple_price_impact := price_impact_pct * 0.3
    let second_new_price := m.currentPrice * (1 + ripple_price_impact / 100)
    { mandiId := m.id
      mandiName := m.name
      priceChange := pyRound2 ripple_price_impact
      newPrice := pyRound2 second_new_price
      originalPrice := m.currentPrice
      newStressScore := (calculate_stress_score { m with currentPrice := second_new_price }).stressScore
      previousStressScore := (calculate_stress_score m).stressScore
      rippleLevel := 2 })

/-- `affected_mandis` (server.py lines 214-273): first level then second. -/
noncomputable def affected_mandis_of (target : Mandi) (shock_type : String) (intensity duration : ℤ)
    (all_mandis : List Mandi) : List AffectedMandi :=
  (first_level_of target all_mandis).map
    (level1_entry shock_type intensity (price_impact_pct_of target shock_type intensity duration)) ++
  (second_level_ids_of target all_mandis).flatMap
    (level2_entries (price_impact_pct_of target shock_type intensity duration) all_mandis)

structure SimulationParameters where
  elasticity : ℝ
  supplyBefore : ℝ
  supplyAfter : ℝ
  demandBefore : ℝ
  demandAfter : ℝ

structure SimulationResult where
  originalMandi : String
  originalMandiId : String
  shockType : String
  intensity : ℤ
  duration : ℤ
  priceImpact : ℝ
  predictedPrice : ℝ
  originalPrice : ℝ
  predictedArrivals : ℤ
  originalArrivals : ℤ
  newStressScore : ℤ
  previousStressScore : ℤ
  newStatus : String
  affectedMandis : List AffectedMandi
  simulatedPriceHistory : List PricePoint
  simulationParameters : SimulationParameters

/-- `simulate_shock` (server.py lines 145-298). -/
noncomputable def simulate_shock (target_mandi : Mandi) (shock_type : String)
    (intensity duration : ℤ) (all_mandis : List Mandi) : SimulationResult :=
  { originalMandi := target_mandi.name
    originalMandiId := target_mandi.id
    shockType := shock_type
    intensity := intensity
    duration := duration
    priceImpact := pyRound2 (price_impact_pct_of target_mandi shock_type intensity duration)
    predictedPrice := pyRound2 (new_price_of target_mandi shock_type intensity duration)
    originalPrice := target_mandi.currentPrice
    predictedArrivals := new_arrivals_of target_mandi shock_type intensity duration
    originalArrivals := target_mandi.arrivals
    newStressScore :=
      (calculate_stress_score (simulated_target_of target_mandi shock_type intensity duration)).stressScore
    previousStressScore := (calculate_stress_score target_mandi).stressScore
    newStatus :=
      (calculate_stress_score (simulated_target_of target_mandi shock_type intensity duration)).status
    affectedMandis := affected_mandis_of target_mandi shock_type intensity duration all_mandis
    simulatedPriceHistory := simulated_history_of target_mandi shock_type intensity duration
    simulationParameters :=
      { elasticity := ELASTICITY
        supplyBefore := target_mandi.baseSupply
        supplyAfter := pyRound0 (new_supply_of target_mandi shock_type intensity duration)
        demandBefore := target_mandi.baseDemand
        demandAfter := pyRound0 (new_demand_of target_mandi shock_type intensity duration) } }

/-! ## Market State Engine (src/backend/market_state.py)

The process-wide mutable `_market_state` / `_state_history` pair is
modelled as an explicit `MarketState` value; each operation returns its
Python result (or the raised `ValueError` message) together with the state
as it stands when the function returns or raises. -/

/-- `get_commodity_from_mandi` (market_state.py lines 66-84): first
case-insensitive name match in the commodities array, falling back to a
record synthesized from the mandi-level fields. -/
def get_commodity_from_mandi (mandi : Mandi) (commodity_name : String) : Option Commodity :=
  match mandi.commodities.find? (fun c => pyLower c.name == pyLower commodity_name) with
  | some c => some c
  | none =>
    if pyLower mandi.commodity == pyLower commodity_name then
      some
        { name := mandi.commodity
          isPrimary := true
          currentPrice := mandi.currentPrice
          previousPrice := mandi.previousPrice
          arrivals := mandi.arrivals
          previousArrivals := mandi.previousArrivals
          baseDemand := mandi.baseDemand
          baseSupply := mandi.baseSupply
          volatility := mandi.volatility }
    else none

/-- `compute_new_price` (market_state.py lines 87-103): the shared
elasticity formula.  The zero-supply branch returns `current_price * 2.0`
directly; only the positive-supply branch rounds. -/
noncomputable def compute_new_price (current_price supply demand : ℝ) : ℝ :=
  if supply ≤ 0 then current_price * 2.0
  else pyRound2 (current_price * ((demand / supply) ^ ELASTICITY))

/-- `validate_arrivals_input` (market_state.py lines 106-123) for an input
that is already an integer (the `None` and non-numeric branches are
unrepresentable at this type). -/
def validate_arrivals_input (arrivals : ℤ) : Except String ℤ :=
  if arrivals ≤ 0 then Except.error "Arrivals must be greater than 0"
  else Except.ok arrivals

/-- `validate_transfer_input` (market_state.py lines 126-145); `none`
means valid, `some msg` is the error message. -/
def validate_transfer_input (source_mandi : Mandi) (quantity : ℤ) (commodity_name : String) :
    Option String :=
  if quantity ≤ 0 then some "Transfer quantity must be greater than 0"
  else
    match get_commodity_from_mandi source_mandi commodity_name with
    | none => some "Commodity not found in source mandi"
    | some commodity =>
      if quantity > commodity.arrivals then some "Insufficient supply" else none

/-- The `enumerate` + `break` search for the first element satisfying a
predicate, returning its index and value. -/
def enumFind (p : α → Bool) : List α → Option (ℕ × α)
  | [] => none
  | x :: xs => if p x then some (0, x) else (enumFind p xs).map (fun ix => (ix.1 + 1, ix.2))

/-- `market_update` history record (market_state.py lines 202-219), minus
the wall-clock timestamp. -/
structure UpdateRecord where
  mandiId : String
  mandiName : String
  commodity : String
  date : String
  previousPrice : ℝ
  newPrice : ℝ
  previousArrivals : ℤ
  newArrivals : ℤ
  previousSupply : ℝ
  newSupply : ℤ
  baseDemand : ℝ
  optionalContext : Option String
  rainFlag : Bool
  festivalFlag : Bool

structure TransferSide where
  previousArrivals : ℤ
  newArrivals : ℤ
  previousPrice : ℝ
  newPrice : ℝ

/-- `transfer_execution` history record (market_state.py lines 363-385),
minus the wall-clock timestamp. -/
structure TransferRecord where
  sourceMandiId : String
  sourceMandiName : String
  destMandiId : String
  destMandiName : String
  commodity : String
  quantity : ℤ
  date : String
  source : TransferSide
  destination : TransferSide

/-- One entry of the append-only `_state_history` log; the constructor
plays the role of the record's `type` field. -/
inductive HistoryEntry where
  | market_update (r : UpdateRecord)
  | transfer_execution (r : TransferRecord)

def HistoryEntry.kind : HistoryEntry → String
  | .market_update _ => "market_update"
  | .transfer_execution _ => "transfer_execution"

/-- The in-memory store: `_market_state["mandis"]` plus `_state_history`. -/
structure MarketState where
  mandis : List Mandi
  history : List HistoryEntry

/-- Update of the first case-insensitive name match in a commodities list
(the loops at market_state.py lines 227-244 and 418-433). -/
def updateCommodities (commodity_name : String) (new_arrivals : ℤ) (new_price : ℝ)
    (prev_arrivals : ℤ) (prev_price : ℝ) : List Commodity → List Commodity
  | [] => []
  | c :: cs =>
    if pyLower c.name == pyLower commodity_name then
      { c with
        previousPrice := prev_price
        currentPrice := new_price
        previousArrivals := prev_arrivals
        arrivals := new_arrivals
        baseSupply := (new_arrivals : ℝ) } :: cs
    else c :: updateCommodities commodity_name new_arrivals new_price prev_arrivals prev_price cs

/-- `_update_mandi_commodity` (market_state.py lines 416-441): update the
first matching commodity record, mirroring the primary commodity at mandi
level, with a mandi-level fallback when no commodity record matches.  The
inline update block of `append_market_update` (lines 226-252, with
`baseSupply := new_supply = new_arrivals`) performs the identical update
and is embedded by this same function. -/
def _update_mandi_commodity (mandi : Mandi) (commodity_name : String) (new_arrivals : ℤ)
    (new_price : ℝ) (prev_arrivals : ℤ) (prev_price : ℝ) : Mandi :=
  match mandi.commodities.find? (fun c => pyLower c.name == pyLower commodity_name) with
  | some c =>
    let mandi' :=
      { mandi with
        commodities :=
          updateCommodities commodity_name new_arrivals new_price prev_arrivals prev_price
            mandi.commodities }
    if c.isPrimary then
      { mandi' with
        previousPrice := prev_price
        currentPrice := new_price
        previousArrivals := prev_arrivals
        arrivals := new_arrivals
        baseSupply := (new_arrivals : ℝ) }
    else mandi'
  | none =>
    if pyLower mandi.commodity == pyLower commodity_name then
      { mandi with
        previousPrice := prev_price
        currentPrice := new_price
        previousArrivals := prev_arrivals
        arrivals := new_arrivals
        baseSupply := (new_arrivals : ℝ) }
    else mandi

/-- Appending the `{date, price}` / `{date, arrivals}` points to a mandi's
history sequences (market_state.py lines 255-258 and 392-395/400-403). -/
def appendMandiHistories (mandi : Mandi) (date : String) (price : ℝ) (arrivals : ℤ) : Mandi :=
  { mandi with
    priceHistory := mandi.priceHistory ++ [{ date := date, price := price }]
    arrivalsHistory := mandi.arrivalsHistory ++ [{ date := date, arrivals := arrivals }] }

structure UpdateResult where
  update : UpdateRecord
  priceChange : ℝ
  arrivalsChange : ℝ

/-- `append_market_update` (market_state.py lines 148-270).  The returned
pair is (Python return value or raised error message, resulting state). -/
noncomputable def append_market_update (state : MarketState) (mandi_id commodity_name : String)
    (new_arrivals : ℤ) (optional_context : Option String) (current_date : String) :
    Except String UpdateResult × MarketState :=
  match enumFind (fun m => m.id == mandi_id) state.mandis with
  | none => (Except.error "Mandi not found", state)
  | some (mandi_idx, mandi) =>
    match get_commodity_from_mandi mandi commodity_name with
    | none => (Except.error "Commodity not found in mandi", state)
    | some commodity =>
      let prev_price := commodity.currentPrice
      let prev_arrivals := commodity.arrivals
      let prev_base_supply := commodity.baseSupply
      let base_demand := commodity.baseDemand
      let new_supply := new_arrivals
      let new_price := compute_new_price prev_price (new_supply : ℝ) base_demand
      let update_record : UpdateRecord :=
        { mandiId := mandi_id
          mandiName := mandi.name
          commodity := commodity_name
          date := current_date
          previousPrice := prev_price
          newPrice := new_price
          previousArrivals := prev_arrivals
          newArrivals := new_arrivals
          previousSupply := prev_base_supply
          newSupply := new_supply
          baseDemand := base_demand
          optionalContext := optional_context
          rainFlag := mandi.rainFlag
          festivalFlag := mandi.festivalFlag }
      let mandi' :=
        appendMandiHistories
          (_update_mandi_commodity mandi commodity_name new_arrivals new_price prev_arrivals
            prev_price)
          current_date new_price new_arrivals
      (Except.ok
        { update := update_record
          priceChange :=
            pyRound2 (if prev_price > 0 then (new_price - prev_price) / prev_price * 100 else 0)
          arrivalsChange :=
            pyRound2
              (if (prev_arrivals : ℝ) > 0
               then ((new_arrivals : ℝ) - (prev_arrivals : ℝ)) / (prev_arrivals : ℝ) * 100
               else 0) },
       { mandis := state.mandis.set mandi_idx mandi'
         history := state.history ++ [HistoryEntry.market_update update_record] })

structure TransferResult where
  transfer : TransferRecord
  sourcePriceChange : ℝ
  destPriceChange : ℝ

/-- `execute_transfer` (market_state.py lines 273-413). -/
noncomputable def execute_transfer (state : MarketState) (source_mandi_id dest_mandi_id : String)
    (commodity_name : String) (quantity : ℤ) (current_date : String) :
    Except String TransferResult × MarketState :=
  match enumFind (fun m => m.id == source_mandi_id) state.mandis with
  | none => (Except.error "Source mandi not found", state)
  | some (source_idx, source_mandi) =>
    match enumFind (fun m => m.id == dest_mandi_id) state.mandis with
    | none => (Except.error "Destination mandi not found", state)
    | some (dest_idx, dest_mandi) =>
      match validate_transfer_input source_mandi quantity commodity_name with
      | some err => (Except.error err, state)
      | none =>
        match get_commodity_from_mandi source_mandi commodity_name with
        | none => (Except.error "Commodity not found in source mandi", state)
        | some source_commodity =>
          let dest_commodity := get_commodity_from_mandi dest_mandi commodity_name
          let source_prev_arrivals := source_commodity.arrivals
          let source_prev_price := source_commodity.currentPrice
          let source_demand0 := source_commodity.baseDemand
          let dest_prev_arrivals := match dest_commodity with
            | some c => c.arrivals
            | none => 0
          let dest_prev_price := match dest_commodity with
            | some c => c.currentPrice
            | none => source_prev_price
          let dest_demand0 := match dest_commodity with
            | some c => c.baseDemand
            | none => (quantity : ℝ)
          let source_demand :=
            if source_demand0 ≤ 0
            then (if source_prev_arrivals > 0 then (source_prev_arrivals : ℝ) else 1000)
            else source_demand0
          let dest_demand := if dest_demand0 ≤ 0 then (quantity : ℝ) else dest_demand0
          let source_new_arrivals := source_prev_arrivals - quantity
          let dest_new_arrivals := dest_prev_arrivals + quantity
          let source_new_price :=
            compute_new_price source_prev_price (source_new_arrivals : ℝ) source_demand
          let dest_new_price :=
            compute_new_price dest_prev_price (dest_new_arrivals : ℝ) dest_demand
          let transfer_record : TransferRecord :=
            { sourceMandiId := source_mandi_id
              sourceMandiName := source_mandi.name
              destMandiId := dest_mandi_id
              destMandiName := dest_mandi.name
              commodity := commodity_name
              quantity := quantity
              date := current_date
              source :=
                { previousArrivals := source_prev_arrivals
                  newArrivals := source_new_arrivals
                  previousPrice := source_prev_price
                  newPrice := source_new_price }
              destination :=
                { previousArrivals := dest_prev_arrivals
                  newArrivals := dest_new_arrivals
                  previousPrice := dest_prev_price
                  newPrice := dest_new_price } }
          let source_mandi' :=
            appendMandiHistories
              (_update_mandi_commodity source_mandi commodity_name source_new_arrivals
                source_new_price source_prev_arrivals source_prev_price)
              current_date source_new_price source_new_arrivals
          let dest_mandi' :=
            appendMandiHistories
              (_update_mandi_commodity dest_mandi commodity_name dest_new_arrivals
                dest_new_price dest_prev_arrivals dest_prev_price)
              current_date dest_new_price dest_new_arrivals
          (Except.ok
            { transfer := transfer_record
              sourcePriceChange :=
                pyRound2
                  (if source_prev_price > 0
                   then (source_new_price - source_prev_price) / source_prev_price * 100
                   else 0)
              destPriceChange :=
                pyRound2
                  (if dest_prev_price > 0
                   then (dest_new_price - dest_prev_price) / dest_prev_price * 100
                   else 0) },
           { mandis := (state.mandis.set source_idx source_mandi').set dest_idx dest_mandi'
             history := state.history ++ [HistoryEntry.transfer_execution transfer_record] })

/-- `get_state_history` (market_state.py lines 444-446). -/
def get_state_history (state : MarketState) : List HistoryEntry := state.history

/-- One sanctioned mutation of the Market State Engine. -/
inductive Op where
  | update (mandiId commodity : String) (arrivals : ℤ) (ctx : Option String) (date : String)
  | transfer (src dst commodity : String) (quantity : ℤ) (date : String)

def Op.kind : Op → String
  | .update .. => "market_update"
  | .transfer .. => "transfer_execution"

/-- Apply one operation, keeping only success/failure of the result. -/
noncomputable def applyOp (state : MarketState) : Op → Except String Unit × MarketState
  | .update mandiId commodity arrivals ctx date =>
    let r := append_market_update state mandiId commodity arrivals ctx date
    (r.1.map (fun _ => ()), r.2)
  | .transfer src dst commodity quantity date =>
    let r := execute_transfer state src dst commodity quantity date
    (r.1.map (fun _ => ()), r.2)

/-- Run a sequence of operations; `none` as soon as one fails. -/
noncomputable def runOps (state : MarketState) : List Op → Option MarketState
  | [] => some state
  | op :: ops =>
    match applyOp state op with
    | (Except.ok _, state') => runOps state' ops
    | (Except.error _, _) => none

/-! ## Evaluation helpers for the rounding primitives -/

theorem roundHalfEven_eq_of_lt_half (x : ℝ) (n : ℤ) (h1 : (n : ℝ) ≤ x)
    (h2 : x < (n : ℝ) + 1/2) : roundHalfEven x = n := by
  have hfl : ⌊x⌋ = n := Int.floor_eq_iff.mpr ⟨h1, by linarith⟩
  rw [roundHalfEven_eq_floor x (by rw [hfl]; linarith), hfl]

theorem pyRound2_intCast_div (n : ℤ) : pyRound2 ((n : ℝ) / 100) = (n : ℝ) / 100 := by
  unfold pyRound2
  rw [div_mul_cancel₀ _ (by norm_num : (100 : ℝ) ≠ 0), roundHalfEven_intCast]

theorem pyRound0_intCast (n : ℤ) : pyRound0 (n : ℝ) = (n : ℝ) := by
  unfold pyRound0
  rw [roundHalfEven_intCast]

/-! ## Concrete market fixtures used by witnesses and counterexamples -/

def mandiA : Mandi :=
  { id := "A", name := "Mandi A", commodity := "onion"
    currentPrice := 10, previousPrice := 10
    arrivals := 100, previousArrivals := 100
    baseDemand := 100, baseSupply := 100, volatility := 0
    rainFlag := false, festivalFlag := false
    commodities := [], priceHistory := [], arrivalsHistory := []
    connectedMandis := [] }

def mandiB : Mandi :=
  { mandiA with id := "B", name := "Mandi B", commodity := "potato" }

/-! ## C1 — shared elasticity pricing function -/

/-- C1 (amended): `compute_new_price` returns `oldPrice * 2.0` (without any
rounding) whenever `supply <= 0` — in particular `price(100, 0, d) = 200.0`
exactly for every demand `d` — and returns the 2-decimal rounding of
`oldPrice * (demand/supply) ^ ELASTICITY`, with `ELASTICITY = 0.4`,
whenever `supply > 0`.  Only the positive-supply branch rounds. -/
theorem C1_compute_new_price_formula (p s d : ℝ) :
    (s ≤ 0 → compute_new_price p s d = p * 2.0) ∧
    (0 < s → compute_new_price p s d = pyRound2 (p * ((d / s) ^ ELASTICITY))) ∧
    ELASTICITY = 0.4 ∧
    (∀ d' : ℝ, compute_new_price 100 0 d' = 200.0) := by
  refine ⟨fun h => ?_, fun h => ?_, rfl, fun d' => ?_⟩
  · rw [compute_new_price, if_pos h]
  · rw [compute_new_price, if_neg (not_le.mpr h)]
  · rw [compute_new_price, if_pos le_rfl]
    norm_num

theorem C1_compute_new_price_formula_witness :
    compute_new_price 100 0 7 = 100 * 2.0 :=
  (C1_compute_new_price_formula 100 0 7).1 le_rfl

/-- Counterexample to C1 as stated: in the zero-supply branch the returned
value is *not* rounded to 2 decimal places — `compute_new_price 0.001 0 10`
returns `0.002`, which is not a 2-decimal value (its 2-decimal rounding is
`0`). -/
theorem C1_compute_new_price_counterexample :
    compute_new_price 0.001 0 10 ≠
      pyRound2 (compute_new_price 0.001 0 10) := by
  have h1 : compute_new_price 0.001 0 10 = 0.002 := by
    rw [compute_new_price, if_pos le_rfl]; norm_num
  have h2 : pyRound2 (0.002 : ℝ) = 0 := by
    unfold pyRound2
    rw [show (0.002 : ℝ) * 100 = 0.2 by norm_num,
      roundHalfEven_eq_of_lt_half 0.2 0 (by norm_num) (by norm_num)]
    norm_num
  rw [h1, h2]
  norm_num

/-! ## C8 — stress status classification -/

/-- C8: the status of the stress engine is determined from the clamped
integer stress score by strict comparisons — `high_risk` iff the score
exceeds 65, `watch` iff it exceeds 35 but not 65, `normal` otherwise; in
particular a score of exactly 65 classifies as `watch`, 66 as `high_risk`,
35 as `normal` and 36 as `watch`. -/
theorem C8_status_classification (m : Mandi) :
    (calculate_stress_score m).status =
      (if (calculate_stress_score m).stressScore > 65 then "high_risk"
       else if (calculate_stress_score m).stressScore > 35 then "watch"
       else "normal") := rfl

/-! ## C6 — supply-shock reduction bounds -/

/-- C6 (amended): for valid inputs (`intensity ∈ [1,100]`,
`duration ∈ [1,30]`) and a supply-type shock, the supply reduction
`(intensity/100) * (duration/7) * 0.4` is bounded only by `12/7 ≈ 1.71`,
not by `0.4`; `newSupply = baseSupply * (1 - supplyReduction)` and
`newArrivals = trunc(currentArrivals * (1 - supplyReduction))`.  Only when
`duration ≤ 7` is the reduction capped at 40%, giving
`newSupply ≥ 0.6 * baseSupply` and non-negative `newArrivals`; for longer
durations both can go negative.  Demand is unchanged in every case. -/
theorem C6_supply_shock_bounds (target : Mandi) (shock_type : String) (intensity duration : ℤ)
    (hs : isSupplyShock shock_type = true)
    (hi1 : 1 ≤ intensity) (hi2 : intensity ≤ 100)
    (hd1 : 1 ≤ duration) (hd2 : duration ≤ 30) :
    supply_reduction_of intensity duration ≤ 12/7 ∧
    new_supply_of target shock_type intensity duration =
      target.baseSupply * (1 - supply_reduction_of intensity duration) ∧
    new_arrivals_of target shock_type intensity duration =
      pyInt ((target.arrivals : ℝ) * (1 - supply_reduction_of intensity duration)) ∧
    (duration ≤ 7 →
      supply_reduction_of intensity duration ≤ 0.4 ∧
      (0 ≤ target.baseSupply →
        0.6 * target.baseSupply ≤ new_supply_of target shock_type intensity duration) ∧
      (0 ≤ target.arrivals → 0 ≤ new_arrivals_of target shock_type intensity duration)) ∧
    new_demand_of target shock_type intensity duration = target.baseDemand := by
  have hi1' : (1 : ℝ) ≤ (intensity : ℝ) := by exact_mod_cast hi1
  have hi2' : (intensity : ℝ) ≤ 100 := by exact_mod_cast hi2
  have hd1' : (1 : ℝ) ≤ (duration : ℝ) := by exact_mod_cast hd1
  have hd2' : (duration : ℝ) ≤ 30 := by exact_mod_cast hd2
  have hr_lb : 0 ≤ supply_reduction_of intensity duration := by
    unfold supply_reduction_of
    positivity
  refine ⟨?_, ?_, ?_, fun h7 => ?_, ?_⟩
  · have hprod : (intensity : ℝ) * (duration : ℝ) ≤ 3000 := by
      calc (intensity : ℝ) * (duration : ℝ) ≤ 100 * 30 :=
            mul_le_mul hi2' hd2' (by linarith) (by norm_num)
        _ = 3000 := by norm_num
    unfold supply_reduction_of
    linarith
  · rw [new_supply_of, if_pos hs]
  · rw [new_arrivals_of, if_pos hs]
  · have hd7 : (duration : ℝ) ≤ 7 := by exact_mod_cast h7
    have hprod : (intensity : ℝ) * (duration : ℝ) ≤ 700 := by
      calc (intensity : ℝ) * (duration : ℝ) ≤ 100 * 7 :=
            mul_le_mul hi2' hd7 (by linarith) (by norm_num)
        _ = 700 := by norm_num
    have hr04 : supply_reduction_of intensity duration ≤ 0.4 := by
      unfold supply_reduction_of
      linarith
    refine ⟨hr04, fun hbs => ?_, fun ha => ?_⟩
    · rw [new_supply_of, if_pos hs]
      nlinarith
    · have ha' : (0 : ℝ) ≤ (target.arrivals : ℝ) := by exact_mod_cast ha
      rw [new_arrivals_of, if_pos hs]
      have hx : (0 : ℝ) ≤ (target.arrivals : ℝ) * (1 - supply_reduction_of intensity duration) := by
        nlinarith
      rw [pyInt, if_pos hx]
      exact Int.floor_nonneg.mpr hx
  · have hne : shock_type ≠ "demand_spike" := by
      intro he
      rw [he] at hs
      exact absurd hs (by decide)
    have hbe : (shock_type == "demand_spike") = false := beq_eq_false_iff_ne.mpr hne
    rw [new_demand_of]
    simp [hbe]

theorem C6_supply_shock_bounds_witness :
    supply_reduction_of 50 7 ≤ 12/7 ∧
    new_supply_of mandiA "rain" 50 7 =
      mandiA.baseSupply * (1 - supply_reduction_of 50 7) ∧
    new_arrivals_of mandiA "rain" 50 7 =
      pyInt ((mandiA.arrivals : ℝ) * (1 - supply_reduction_of 50 7)) ∧
    ((7 : ℤ) ≤ 7 →
      supply_reduction_of 50 7 ≤ 0.4 ∧
      (0 ≤ mandiA.baseSupply → 0.6 * mandiA.baseSupply ≤ new_supply_of mandiA "rain" 50 7) ∧
      (0 ≤ mandiA.arrivals → 0 ≤ new_arrivals_of mandiA "rain" 50 7)) ∧
    new_demand_of mandiA "rain" 50 7 = mandiA.baseDemand :=
  C6_supply_shock_bounds mandiA "rain" 50 7 (by decide) (by norm_num) (by norm_num) (by norm_num)
    (by norm_num)

/-- Counterexample to C6 as stated: at `intensity = 100, duration = 30` the
supply reduction is `12/7 > 0.4`, and for a market with `baseSupply = 100`
and `arrivals = 100` the new supply is `-500/7 < 0.6 * 100` and the new
arrivals figure is `-71 < 0`. -/
theorem C6_counterexample :
    supply_reduction_of 100 30 = 12/7 ∧
    ¬ (supply_reduction_of 100 30 ≤ 0.4) ∧
    new_supply_of mandiA "rain" 100 30 = -(500/7) ∧
    ¬ (0.6 * mandiA.baseSupply ≤ new_supply_of mandiA "rain" 100 30) ∧
    new_arrivals_of mandiA "rain" 100 30 = -71 ∧
    ¬ (0 ≤ new_arrivals_of mandiA "rain" 100 30) := by
  have hsr : isSupplyShock "rain" = true := by decide
  have h : supply_reduction_of 100 30 = 12/7 := by
    unfold supply_reduction_of
    norm_num
  have h2 : new_supply_of mandiA "rain" 100 30 = -(500/7) := by
    rw [new_supply_of, if_pos hsr, h]
    show (100 : ℝ) * _ = _
    norm_num
  have h3 : new_arrivals_of mandiA "rain" 100 30 = -71 := by
    rw [new_arrivals_of, if_pos hsr, h]
    show pyInt ((100 : ℝ) * (1 - 12/7)) = -71
    rw [show (100 : ℝ) * (1 - 12/7) = -(500/7) by norm_num]
    rw [pyInt, if_neg (by norm_num)]
    rw [Int.ceil_eq_iff]
    constructor
    · push_cast
      norm_num
    · push_cast
      norm_num
  refine ⟨h, by rw [h]; norm_num, h2, ?_, h3, by rw [h3]; norm_num⟩
  rw [h2]
  show ¬ (0.6 * (100 : ℝ) ≤ _)
  norm_num

/-! ## C9 — demand-spike shock -/

/-- C9 (amended): for every simulate call with shock type `demand_spike`
and valid intensity/duration, the target's arrivals are unchanged
(`predictedArrivals = originalArrivals`), the internal supply is unchanged
and the internal demand is multiplied by
`1 + (intensity/100) * (duration/7) * 0.35`.  For the *reported*
`simulationParameters`, which are rounded to 0 decimal places,
`demandAfter > demandBefore` holds at `intensity = 80, duration = 7`
provided `baseDemand ≥ 2` (it fails at `baseDemand = 1`), and
`supplyAfter = supplyBefore` holds provided `baseSupply` is an integer. -/
theorem C9_demand_spike (target : Mandi) (all_mandis : List Mandi) (intensity duration : ℤ)
    (hi1 : 1 ≤ intensity) (hi2 : intensity ≤ 100)
    (hd1 : 1 ≤ duration) (hd2 : duration ≤ 30) :
    (simulate_shock target "demand_spike" intensity duration all_mandis).predictedArrivals =
      (simulate_shock target "demand_spike" intensity duration all_mandis).originalArrivals ∧
    new_supply_of target "demand_spike" intensity duration = target.baseSupply ∧
    new_demand_of target "demand_spike" intensity duration =
      target.baseDemand * (1 + ((intensity : ℝ) / 100) * ((duration : ℝ) / 7) * 0.35) ∧
    (intensity = 80 → duration = 7 → 2 ≤ target.baseDemand →
      (simulate_shock target "demand_spike" intensity duration
          all_mandis).simulationParameters.demandBefore <
        (simulate_shock target "demand_spike" intensity duration
          all_mandis).simulationParameters.demandAfter) ∧
    (∀ n : ℤ, target.baseSupply = (n : ℝ) →
      (simulate_shock target "demand_spike" intensity duration
          all_mandis).simulationParameters.supplyAfter =
        (simulate_shock target "demand_spike" intensity duration
          all_mandis).simulationParameters.supplyBefore) := by
  have hnd : new_demand_of target "demand_spike" intensity duration =
      target.baseDemand * (1 + ((intensity : ℝ) / 100) * ((duration : ℝ) / 7) * 0.35) := by
    rw [new_demand_of, demand_increase_of]
    simp
  have hns : new_supply_of target "demand_spike" intensity duration = target.baseSupply := by
    rw [new_supply_of, if_neg (by decide : ¬ isSupplyShock "demand_spike" = true)]
  refine ⟨?_, hns, hnd, fun h80 h7 hD => ?_, fun n hn => ?_⟩
  · show new_arrivals_of target "demand_spike" intensity duration = target.arrivals
    rw [new_arrivals_of, if_neg (by decide : ¬ isSupplyShock "demand_spike" = true)]
  · show target.baseDemand < pyRound0 (new_demand_of target "demand_spike" intensity duration)
    subst h80 h7
    rw [hnd]
    have hval : target.baseDemand * (1 + ((80 : ℤ) : ℝ) / 100 * (((7 : ℤ) : ℝ) / 7) * 0.35) =
        target.baseDemand * 1.28 := by
      push_cast
      ring
    rw [hval, pyRound0]
    have hb := sub_half_le_roundHalfEven (target.baseDemand * 1.28)
    linarith
  · show pyRound0 (new_supply_of target "demand_spike" intensity duration) = target.baseSupply
    rw [hns, hn, pyRound0_intCast]

theorem C9_demand_spike_witness :
    (simulate_shock mandiA "demand_spike" 80 7 []).simulationParameters.demandBefore <
      (simulate_shock mandiA "demand_spike" 80 7 []).simulationParameters.demandAfter :=
  (C9_demand_spike mandiA [] 80 7 (by norm_num) (by norm_num) (by norm_num)
      (by norm_num)).2.2.2.1 rfl rfl (by norm_num [mandiA])

/-- A market whose primary-commodity base demand is 1. -/
def c9LowDemand : Mandi := { mandiA with baseDemand := 1 }

/-- Counterexample to C9 as stated: at `intensity = 80, duration = 7` and
`baseDemand = 1`, the reported `demandAfter = round(1.28, 0) = 1` equals
`demandBefore = 1`, so `demandAfter > demandBefore` fails. -/
theorem C9_counterexample :
    ¬ ((simulate_shock c9LowDemand "demand_spike" 80 7 []).simulationParameters.demandBefore <
        (simulate_shock c9LowDemand "demand_spike" 80 7 []).simulationParameters.demandAfter) := by
  have h1 : (simulate_shock c9LowDemand "demand_spike" 80 7
      []).simulationParameters.demandBefore = 1 := by
    show c9LowDemand.baseDemand = 1
    rw [c9LowDemand]
  have h3 : new_demand_of c9LowDemand "demand_spike" 80 7 = 1.28 := by
    rw [new_demand_of, demand_increase_of]
    simp only [beq_self_eq_true, if_true]
    rw [show c9LowDemand.baseDemand = 1 from by rw [c9LowDemand]]
    push_cast
    norm_num
  have h2 : (simulate_shock c9LowDemand "demand_spike" 80 7
      []).simulationParameters.demandAfter = 1 := by
    show pyRound0 (new_demand_of c9LowDemand "demand_spike" 80 7) = 1
    rw [h3, pyRound0,
      roundHalfEven_eq_of_lt_half 1.28 1 (by norm_num) (by norm_num)]
    norm_num
  rw [h1, h2]
  norm_num

/-! ## C5 — projected price history -/

/-- C5 (amended): the projected price history has the same length and the
same dates as the original history; every point at index `k < len - 2` is
copied *unchanged* — in particular the third-from-last point, whose
interpolation progress would be 0, is copied without any rounding — and
every point at index `k ≥ len - 2` (the last two) equals the original
price plus `(newPrice - currentPrice) * (k - (len - 3)) / 3`, rounded to
2 decimal places. -/
theorem C5_projected_history (target : Mandi) (shock_type : String) (intensity duration : ℤ)
    (all_mandis : List Mandi) :
    (simulate_shock target shock_type intensity duration all_mandis).simulatedPriceHistory.length =
      target.priceHistory.length ∧
    (∀ k, k < target.priceHistory.length → ∃ p q,
      (simulate_shock target shock_type intensity duration
        all_mandis).simulatedPriceHistory[k]? = some p ∧
      target.priceHistory[k]? = some q ∧
      p.date = q.date ∧
      ((k : ℤ) < (target.priceHistory.length : ℤ) - 2 → p = q) ∧
      ((target.priceHistory.length : ℤ) - 2 ≤ (k : ℤ) →
        p.price = pyRound2 (q.price +
          (new_price_of target shock_type intensity duration - target.currentPrice) *
          (((k : ℝ) - ((target.priceHistory.length : ℝ) - 3)) / 3)))) := by
  have hsh : (simulate_shock target shock_type intensity duration
      all_mandis).simulatedPriceHistory = simulated_history_of target shock_type intensity duration :=
    rfl
  rw [hsh, simulated_history_of]
  refine ⟨by rw [List.length_map, List.enum_length], fun k hk => ?_⟩
  have hq : target.priceHistory[k]? = some (target.priceHistory[k]) :=
    List.getElem?_eq_getElem hk
  have hmap : (List.map
      (fun p =>
        if (p.1 : ℤ) < (target.priceHistory.length : ℤ) - 2
        then ({ date := p.2.date, price := p.2.price } : PricePoint)
        else
          { date := p.2.date
            price := pyRound2 (p.2.price +
              (new_price_of target shock_type intensity duration - target.currentPrice) *
              (((p.1 : ℝ) - ((target.priceHistory.length : ℝ) - 3)) / 3)) })
      target.priceHistory.enum)[k]? =
      some
        (if (k : ℤ) < (target.priceHistory.length : ℤ) - 2
         then ({ date := target.priceHistory[k].date,
                 price := target.priceHistory[k].price } : PricePoint)
         else
           { date := target.priceHistory[k].date
             price := pyRound2 (target.priceHistory[k].price +
               (new_price_of target shock_type intensity duration - target.currentPrice) *
               (((k : ℝ) - ((target.priceHistory.length : ℝ) - 3)) / 3)) }) := by
    rw [List.getElem?_map, List.getElem?_enum, hq]
    rfl
  by_cases hc : (k : ℤ) < (target.priceHistory.length : ℤ) - 2
  · refine ⟨_, target.priceHistory[k], hmap, hq, ?_, fun _ => ?_,
      fun hcond => absurd hc (not_lt.mpr hcond)⟩
    · rw [if_pos hc]
    · rw [if_pos hc]
  · refine ⟨_, target.priceHistory[k], hmap, hq, ?_, fun hcond => absurd hcond hc,
      fun _ => ?_⟩
    · rw [if_neg hc]
    · rw [if_neg hc]

/-- A market with a 3-point price history whose third-from-last price has
three decimals. -/
def c5tgt : Mandi :=
  { mandiA with
    priceHistory :=
      [{ date := "d1", price := 0.001 }, { date := "d2", price := 10 },
       { date := "d3", price := 10 }] }

theorem C5_projected_history_witness :
    0 < c5tgt.priceHistory.length ∧
    (∃ p q,
      (simulate_shock c5tgt "none" 50 7 []).simulatedPriceHistory[0]? = some p ∧
      c5tgt.priceHistory[0]? = some q ∧
      p.date = q.date ∧
      (((0 : ℕ) : ℤ) < (c5tgt.priceHistory.length : ℤ) - 2 → p = q) ∧
      ((c5tgt.priceHistory.length : ℤ) - 2 ≤ ((0 : ℕ) : ℤ) →
        p.price = pyRound2 (q.price +
          (new_price_of c5tgt "none" 50 7 - c5tgt.currentPrice) *
          ((((0 : ℕ) : ℝ) - ((c5tgt.priceHistory.length : ℝ) - 3)) / 3)))) :=
  ⟨by norm_num [c5tgt, mandiA],
   (C5_projected_history c5tgt "none" 50 7 []).2 0 (by norm_num [c5tgt, mandiA])⟩

/-- Counterexample to C5 as stated: for a 3-point history
`[0.001, 10, 10]` the claim predicts that the first point (index 0, one of
"the last 3") is `round(0.001 + delta * 0, 2) = 0`, but the code copies it
unchanged as `0.001`. -/
theorem C5_counterexample :
    (simulate_shock c5tgt "none" 50 7 []).simulatedPriceHistory[0]?.map PricePoint.price =
      some 0.001 ∧
    pyRound2 (0.001 + (new_price_of c5tgt "none" 50 7 - c5tgt.currentPrice) *
      (((0 : ℝ) - ((c5tgt.priceHistory.length : ℝ) - 3)) / 3)) = 0 ∧
    (0.001 : ℝ) ≠ 0 := by
  refine ⟨rfl, ?_, by norm_num⟩
  have hlen : (c5tgt.priceHistory.length : ℝ) = 3 := by norm_num [c5tgt, mandiA]
  rw [hlen,
    show 0.001 + (new_price_of c5tgt "none" 50 7 - c5tgt.currentPrice) *
      (((0 : ℝ) - ((3 : ℝ) - 3)) / 3) = 0.001 by ring]
  unfold pyRound2
  rw [show (0.001 : ℝ) * 100 = 0.1 by norm_num,
    roundHalfEven_eq_of_lt_half 0.1 0 (by norm_num) (by norm_num)]
  norm_num

/-! ## C7 — two-hop ripple decay -/

theorem nodup_flatMap_of_forall_eq (sids : List String) (f : String → List String)
    (hs : sids.Nodup) (hall : ∀ sid ∈ sids, ∀ x ∈ f sid, x = sid)
    (hnd : ∀ sid ∈ sids, (f sid).Nodup) : (sids.flatMap f).Nodup := by
  induction sids with
  | nil => simp
  | cons a l ih =>
    rw [List.flatMap_cons]
    refine List.Nodup.append (hnd a (by simp)) ?_ ?_
    · exact ih (List.Nodup.of_cons hs)
        (fun s hs' x hx => hall s (by simp [hs']) x hx)
        (fun s hs' => hnd s (by simp [hs']))
    · intro x hxa hxb
      obtain ⟨s, hsl, hxs⟩ := List.mem_flatMap.mp hxb
      have hx1 : x = a := hall a (by simp) x hxa
      have hx2 : x = s := hall s (by simp [hsl]) x hxs
      exact (List.nodup_cons.mp hs).1 (hx1 ▸ hx2 ▸ hsl)

/-- Every id collected into the second-level set differs from the target's
id and is not listed among the target's direct connections. -/
theorem mem_second_level_ids (target : Mandi) (all_mandis : List Mandi) (sid : String)
    (h : sid ∈ second_level_ids_of target all_mandis) :
    sid ≠ target.id ∧ sid ∉ target.connectedMandis := by
  rw [second_level_ids_of, List.mem_dedup] at h
  obtain ⟨cid, _, h2⟩ := List.mem_flatMap.mp h
  obtain ⟨m, _, h3⟩ := List.mem_flatMap.mp h2
  obtain ⟨-, hp⟩ := List.mem_filter.mp h3
  rw [Bool.and_eq_true] at hp
  refine ⟨by simpa using hp.1, fun hmem => ?_⟩
  have hc : target.connectedMandis.contains sid = true := by simpa using hmem
  rw [hc] at hp
  simp at hp

/-- C7: every level-1 entry of `affectedMandis` reports
`priceChange = round(0.6 * P, 2)` with the new price applied
multiplicatively to that neighbor's own current price, and its id is one
of the target's direct connections; every level-2 entry reports
`priceChange = round(0.3 * P, 2)`, price applied multiplicatively with no
arrivals adjustment (its new stress score is computed from a snapshot
whose arrivals are untouched), and its id is neither the target's nor any
directly-connected id; when market ids are unique, the level-2 entries
have pairwise-distinct ids (a market reachable via two different level-1
neighbors appears only once). -/
theorem C7_ripple_decay (target : Mandi) (shock_type : String) (intensity duration : ℤ)
    (all_mandis : List Mandi) :
    (∀ e ∈ (simulate_shock target shock_type intensity duration all_mandis).affectedMandis,
      (e.rippleLevel = 1 →
        e.priceChange =
          pyRound2 (0.6 * price_impact_pct_of target shock_type intensity duration) ∧
        e.newPrice = pyRound2 (e.originalPrice *
          (1 + price_impact_pct_of target shock_type intensity duration * 0.6 / 100)) ∧
        e.mandiId ∈ target.connectedMandis) ∧
      (e.rippleLevel = 2 →
        e.priceChange =
          pyRound2 (0.3 * price_impact_pct_of target shock_type intensity duration) ∧
        e.newPrice = pyRound2 (e.originalPrice *
          (1 + price_impact_pct_of target shock_type intensity duration * 0.3 / 100)) ∧
        (∃ m ∈ all_mandis, m.id = e.mandiId ∧ e.originalPrice = m.currentPrice ∧
          e.newStressScore = (calculate_stress_score { m with
            currentPrice := m.currentPrice *
              (1 + price_impact_pct_of target shock_type intensity duration *
                0.3 / 100) }).stressScore) ∧
        e.mandiId ≠ target.id ∧ e.mandiId ∉ target.connectedMandis)) ∧
    ((all_mandis.map Mandi.id).Nodup →
      (((simulate_shock target shock_type intensity duration all_mandis).affectedMandis.filter
          (fun e => e.rippleLevel == 2)).map (fun e => e.mandiId)).Nodup) := by
  have haff : (simulate_shock target shock_type intensity duration all_mandis).affectedMandis =
      (first_level_of target all_mandis).map
        (level1_entry shock_type intensity
          (price_impact_pct_of target shock_type intensity duration)) ++
      (second_level_ids_of target all_mandis).flatMap
        (level2_entries (price_impact_pct_of target shock_type intensity duration)
          all_mandis) := rfl
  constructor
  · intro e he
    rw [haff] at he
    rcases List.mem_append.mp he with h1 | h2
    · obtain ⟨nb, hnb, rfl⟩ := List.mem_map.mp h1
      refine ⟨fun _ => ⟨?_, rfl, ?_⟩,
        fun hlvl => absurd (show (1 : ℕ) = 2 from hlvl) (by norm_num)⟩
      · exact congrArg pyRound2
          (mul_comm (price_impact_pct_of target shock_type intensity duration) 0.6)
      · rw [first_level_of] at hnb
        obtain ⟨cid, hcid, hnb'⟩ := List.mem_flatMap.mp hnb
        obtain ⟨-, hpred⟩ := List.mem_filter.mp hnb'
        have : nb.id = cid := by simpa using hpred
        show nb.id ∈ target.connectedMandis
        rw [this]
        exact hcid
    · obtain ⟨sid, hsid, he2⟩ := List.mem_flatMap.mp h2
      rw [level2_entries] at he2
      obtain ⟨m, hm, rfl⟩ := List.mem_map.mp he2
      obtain ⟨hmall, hmpred⟩ := List.mem_filter.mp hm
      have hid : m.id = sid := by simpa using hmpred
      have hexcl := mem_second_level_ids target all_mandis sid hsid
      refine ⟨fun hlvl => absurd (show (2 : ℕ) = 1 from hlvl) (by norm_num),
        fun _ => ⟨?_, rfl, ⟨m, hmall, rfl, rfl, rfl⟩, ?_, ?_⟩⟩
      · exact congrArg pyRound2
          (mul_comm (price_impact_pct_of target shock_type intensity duration) 0.3)
      · show m.id ≠ target.id
        rw [hid]
        exact hexcl.1
      · show m.id ∉ target.connectedMandis
        rw [hid]
        exact hexcl.2
  · intro hnodup
    rw [haff, List.filter_append]
    have hA : ((first_level_of target all_mandis).map
        (level1_entry shock_type intensity
          (price_impact_pct_of target shock_type intensity duration))).filter
          (fun e => e.rippleLevel == 2) = [] := by
      rw [List.filter_eq_nil_iff]
      intro e he
      obtain ⟨nb, -, rfl⟩ := List.mem_map.mp he
      show ¬ ((1 : ℕ) == 2) = true
      decide
    have hB : ((second_level_ids_of target all_mandis).flatMap
        (level2_entries (price_impact_pct_of target shock_type intensity duration)
          all_mandis)).filter (fun e => e.rippleLevel == 2) =
        (second_level_ids_of target all_mandis).flatMap
          (level2_entries (price_impact_pct_of target shock_type intensity duration)
            all_mandis) := by
      rw [List.filter_eq_self]
      intro e he
      obtain ⟨sid, -, he2⟩ := List.mem_flatMap.mp he
      rw [level2_entries] at he2
      obtain ⟨m, -, rfl⟩ := List.mem_map.mp he2
      show ((2 : ℕ) == 2) = true
      decide
    rw [hA, hB, List.nil_append, List.map_flatMap]
    refine nodup_flatMap_of_forall_eq _ _ ?_ ?_ ?_
    · rw [second_level_ids_of]
      exact List.nodup_dedup _
    · intro sid _ x hx
      rw [level2_entries, List.map_map] at hx
      obtain ⟨m, hm, rfl⟩ := List.mem_map.mp hx
      obtain ⟨-, hmpred⟩ := List.mem_filter.mp hm
      simpa using hmpred
    · intro sid _
      have hcomp : ((level2_entries
          (price_impact_pct_of target shock_type intensity duration) all_mandis sid).map
            (fun e => e.mandiId)) =
          (all_mandis.filter (fun m => m.id == sid)).map (fun m => m.id) := by
        rw [level2_entries, List.map_map]
        rfl
      rw [hcomp]
      exact hnodup.sublist ((List.filter_sublist _).map _)

/-- Target of a small two-hop ripple graph: T — A — B. -/
def c7target : Mandi := { mandiA with id := "T", connectedMandis := ["A"] }

def c7nbA : Mandi := { mandiA with id := "A", connectedMandis := ["T", "B"] }

def c7nbB : Mandi := { mandiA with id := "B" }

theorem C7_ripple_decay_witness :
    (level1_entry "rain" 50 (price_impact_pct_of c7target "rain" 50 7) c7nbA ∈
      (simulate_shock c7target "rain" 50 7 [c7nbA, c7nbB]).affectedMandis) ∧
    (level1_entry "rain" 50 (price_impact_pct_of c7target "rain" 50 7) c7nbA).priceChange =
      pyRound2 (0.6 * price_impact_pct_of c7target "rain" 50 7) ∧
    ([c7nbA, c7nbB].map Mandi.id).Nodup ∧
    (((simulate_shock c7target "rain" 50 7 [c7nbA, c7nbB]).affectedMandis.filter
        (fun e => e.rippleLevel == 2)).map (fun e => e.mandiId)).Nodup := by
  have hmem : level1_entry "rain" 50 (price_impact_pct_of c7target "rain" 50 7) c7nbA ∈
      (simulate_shock c7target "rain" 50 7 [c7nbA, c7nbB]).affectedMandis := by
    show _ ∈ (first_level_of c7target [c7nbA, c7nbB]).map
        (level1_entry "rain" 50 (price_impact_pct_of c7target "rain" 50 7)) ++ _
    refine List.mem_append_left _ (List.mem_map_of_mem _ ?_)
    rw [first_level_of]
    simp [c7target, c7nbA, c7nbB, mandiA]
  have hnodup : ([c7nbA, c7nbB].map Mandi.id).Nodup := by
    simp [c7nbA, c7nbB, mandiA]
  exact ⟨hmem,
    (((C7_ripple_decay c7target "rain" 50 7 [c7nbA, c7nbB]).1 _ hmem).1 rfl).1,
    hnodup,
    (C7_ripple_decay c7target "rain" 50 7 [c7nbA, c7nbB]).2 hnodup⟩

/-! ## Shape lemmas for the state operations -/

theorem append_market_update_error (s : MarketState) (mid c : String) (a : ℤ)
    (ctx : Option String) (date : String) (e : String)
    (h : (append_market_update s mid c a ctx date).1 = Except.error e) :
    (append_market_update s mid c a ctx date).2 = s := by
  rcases hm : enumFind (fun m => m.id == mid) s.mandis with _ | ⟨i, m⟩
  · simp only [append_market_update, hm]
  · rcases hc : get_commodity_from_mandi m c with _ | c0
    · simp only [append_market_update, hm, hc]
    · simp only [append_market_update, hm, hc] at h
      exact Except.noConfusion h

theorem append_market_update_ok (s : MarketState) (mid c : String) (a : ℤ)
    (ctx : Option String) (date : String) (r : UpdateResult)
    (h : (append_market_update s mid c a ctx date).1 = Except.ok r) :
    (append_market_update s mid c a ctx date).2.history =
      s.history ++ [HistoryEntry.market_update r.update] := by
  rcases hm : enumFind (fun m => m.id == mid) s.mandis with _ | ⟨i, m⟩
  · simp only [append_market_update, hm] at h
    exact Except.noConfusion h
  · rcases hc : get_commodity_from_mandi m c with _ | c0
    · simp only [append_market_update, hm, hc] at h
      exact Except.noConfusion h
    · simp only [append_market_update, hm, hc] at h ⊢
      obtain rfl := Except.ok.inj h
      rfl

theorem execute_transfer_error (s : MarketState) (src dst c : String) (q : ℤ) (date : String)
    (e : String) (h : (execute_transfer s src dst c q date).1 = Except.error e) :
    (execute_transfer s src dst c q date).2 = s := by
  rcases hm : enumFind (fun m => m.id == src) s.mandis with _ | ⟨i, sm⟩
  · simp only [execute_transfer, hm]
  · rcases hd : enumFind (fun m => m.id == dst) s.mandis with _ | ⟨j, dm⟩
    · simp only [execute_transfer, hm, hd]
    · rcases hv : validate_transfer_input sm q c with _ | err
      · rcases hc : get_commodity_from_mandi sm c with _ | c0
        · simp only [execute_transfer, hm, hd, hv, hc]
        · simp only [execute_transfer, hm, hd, hv, hc] at h
          exact Except.noConfusion h
      · simp only [execute_transfer, hm, hd, hv]

theorem execute_transfer_ok (s : MarketState) (src dst c : String) (q : ℤ) (date : String)
    (r : TransferResult) (h : (execute_transfer s src dst c q date).1 = Except.ok r) :
    (execute_transfer s src dst c q date).2.history =
      s.history ++ [HistoryEntry.transfer_execution r.transfer] := by
  rcases hm : enumFind (fun m => m.id == src) s.mandis with _ | ⟨i, sm⟩
  · simp only [execute_transfer, hm] at h
    exact Except.noConfusion h
  · rcases hd : enumFind (fun m => m.id == dst) s.mandis with _ | ⟨j, dm⟩
    · simp only [execute_transfer, hm, hd] at h
      exact Except.noConfusion h
    · rcases hv : validate_transfer_input sm q c with _ | err
      · rcases hc : get_commodity_from_mandi sm c with _ | c0
        · simp only [execute_transfer, hm, hd, hv, hc] at h
          exact Except.noConfusion h
        · simp only [execute_transfer, hm, hd, hv, hc] at h ⊢
          obtain rfl := Except.ok.inj h
          rfl
      · simp only [execute_transfer, hm, hd, hv] at h
        exact Except.noConfusion h

/-! ## C3 — fail fast, no side effects on failure -/

/-- C3: whenever `append_market_update` or `execute_transfer` raises, the
in-memory market state and the history log are exactly as they were before
the call (so a failed transfer never leaves the source updated without the
destination, and no history entry is appended on any failure); the listed
failure conditions — market not found, commodity not found in the source,
non-positive quantity (rejected by `validate_arrivals_input` for updates
and inside `execute_transfer` for transfers), and transfer quantity
exceeding the source commodity's arrivals — all raise. -/
theorem C3_fail_fast :
    (∀ s mid c a ctx date e,
      (append_market_update s mid c a ctx date).1 = Except.error e →
      (append_market_update s mid c a ctx date).2 = s) ∧
    (∀ s src dst c q date e,
      (execute_transfer s src dst c q date).1 = Except.error e →
      (execute_transfer s src dst c q date).2 = s) ∧
    (∀ s mid c a ctx date, enumFind (fun m => m.id == mid) s.mandis = none →
      ∃ e, (append_market_update s mid c a ctx date).1 = Except.error e) ∧
    (∀ s mid c a ctx date i m, enumFind (fun m => m.id == mid) s.mandis = some (i, m) →
      get_commodity_from_mandi m c = none →
      ∃ e, (append_market_update s mid c a ctx date).1 = Except.error e) ∧
    (∀ s src dst c q date, q ≤ 0 →
      ∃ e, (execute_transfer s src dst c q date).1 = Except.error e) ∧
    (∀ s src dst c q date i sm cm,
      enumFind (fun m => m.id == src) s.mandis = some (i, sm) →
      get_commodity_from_mandi sm c = some cm → cm.arrivals < q →
      ∃ e, (execute_transfer s src dst c q date).1 = Except.error e) ∧
    (∀ a : ℤ, a ≤ 0 → ∃ e, validate_arrivals_input a = Except.error e) := by
  refine ⟨append_market_update_error, execute_transfer_error, ?_, ?_, ?_, ?_, ?_⟩
  · intro s mid c a ctx date hm
    exact ⟨"Mandi not found", by simp only [append_market_update, hm]⟩
  · intro s mid c a ctx date i m hm hc
    exact ⟨"Commodity not found in mandi", by simp only [append_market_update, hm, hc]⟩
  · intro s src dst c q date hq
    rcases hm : enumFind (fun m => m.id == src) s.mandis with _ | ⟨i, sm⟩
    · exact ⟨"Source mandi not found", by simp only [execute_transfer, hm]⟩
    · rcases hd : enumFind (fun m => m.id == dst) s.mandis with _ | ⟨j, dm⟩
      · exact ⟨"Destination mandi not found", by simp only [execute_transfer, hm, hd]⟩
      · have hv : validate_transfer_input sm q c =
            some "Transfer quantity must be greater than 0" := by
          rw [validate_transfer_input, if_pos hq]
        exact ⟨"Transfer quantity must be greater than 0",
          by simp only [execute_transfer, hm, hd, hv]⟩
  · intro s src dst c q date i sm cm hm hcm hlt
    rcases hd : enumFind (fun m => m.id == dst) s.mandis with _ | ⟨j, dm⟩
    · exact ⟨"Destination mandi not found", by simp only [execute_transfer, hm, hd]⟩
    · by_cases hq0 : q ≤ 0
      · have hv : validate_transfer_input sm q c =
            some "Transfer quantity must be greater than 0" := by
          rw [validate_transfer_input, if_pos hq0]
        exact ⟨"Transfer quantity must be greater than 0",
          by simp only [execute_transfer, hm, hd, hv]⟩
      · have hv : validate_transfer_input sm q c = some "Insufficient supply" := by
          rw [validate_transfer_input, if_neg hq0, hcm]
          show (if q > cm.arrivals then some "Insufficient supply" else none) =
            some "Insufficient supply"
          rw [if_pos hlt]
        exact ⟨"Insufficient supply", by simp only [execute_transfer, hm, hd, hv]⟩
  · intro a ha
    exact ⟨"Arrivals must be greater than 0", by rw [validate_arrivals_input, if_pos ha]⟩

theorem C3_fail_fast_witness :
    (execute_transfer { mandis := [mandiA, mandiB], history := [] } "A" "B" "onion" 0 "d").2 =
      { mandis := [mandiA, mandiB], history := [] } := by
  obtain ⟨e, he⟩ := C3_fail_fast.2.2.2.2.1
    { mandis := [mandiA, mandiB], history := [] } "A" "B" "onion" 0 "d" le_rfl
  exact C3_fail_fast.2.1 _ "A" "B" "onion" 0 "d" e he

/-! ## C4 — primary-commodity mirror invariant -/

/-- The denormalization invariant of §3 of the spec: whenever the first
case-insensitive name match for `commodity_name` in the mandi's
commodities array is flagged `isPrimary`, the mandi-level price/arrivals/
supply fields coincide with that commodity's fields. -/
def mirrorOK (m : Mandi) (commodity_name : String) : Prop :=
  ∀ c, m.commodities.find? (fun c => pyLower c.name == pyLower commodity_name) = some c →
    c.isPrimary = true →
    m.currentPrice = c.currentPrice ∧ m.previousPrice = c.previousPrice ∧
    m.arrivals = c.arrivals ∧ m.previousArrivals = c.previousArrivals ∧
    m.baseSupply = c.baseSupply

theorem enumFind_spec (p : α → Bool) (xs : List α) (i : ℕ) (x : α)
    (h : enumFind p xs = some (i, x)) :
    i < xs.length ∧ xs[i]? = some x ∧ p x = true := by
  induction xs generalizing i with
  | nil => simp [enumFind] at h
  | cons y ys ih =>
    rw [enumFind] at h
    by_cases hp : p y
    · rw [if_pos hp] at h
      obtain ⟨h1, h2⟩ := Prod.mk.inj (Option.some.inj h)
      subst h1
      subst h2
      exact ⟨Nat.succ_pos _, by simp, hp⟩
    · rw [if_neg hp] at h
      rcases he : enumFind p ys with _ | ⟨k, z⟩
      · rw [he] at h
        exact Option.noConfusion h
      · rw [he] at h
        have h' : ((k + 1 : ℕ), z) = (i, x) := Option.some.inj h
        obtain ⟨h1, h2⟩ := Prod.mk.inj h'
        subst h1
        subst h2
        obtain ⟨g1, g2, g3⟩ := ih k he
        exact ⟨Nat.succ_lt_succ g1, by simpa using g2, g3⟩

theorem find?_cons_pos (p : α → Bool) (a : α) (l : List α) (h : p a = true) :
    (a :: l).find? p = some a := by
  simp [List.find?, h]

theorem find?_cons_neg (p : α → Bool) (a : α) (l : List α) (h : p a = false) :
    (a :: l).find? p = l.find? p := by
  simp [List.find?, h]

theorem find?_updateCommodities (commodity_name : String) (na : ℤ) (np : ℝ) (pa : ℤ) (pp : ℝ)
    (cs : List Commodity) (c : Commodity)
    (h : cs.find? (fun c => pyLower c.name == pyLower commodity_name) = some c) :
    (updateCommodities commodity_name na np pa pp cs).find?
        (fun c => pyLower c.name == pyLower commodity_name) =
      some
        { c with
          previousPrice := pp
          currentPrice := np
          previousArrivals := pa
          arrivals := na
          baseSupply := (na : ℝ) } := by
  induction cs with
  | nil => simp [List.find?] at h
  | cons y ys ih =>
    by_cases hy : (pyLower y.name == pyLower commodity_name) = true
    · rw [find?_cons_pos (fun c : Commodity => pyLower c.name == pyLower commodity_name) y ys hy] at h
      obtain rfl := Option.some.inj h
      rw [updateCommodities, if_pos hy]
      exact find?_cons_pos (fun c : Commodity => pyLower c.name == pyLower commodity_name) _ _ hy
    · have hy' : (pyLower y.name == pyLower commodity_name) = false :=
        eq_false_of_ne_true hy
      rw [find?_cons_neg (fun c : Commodity => pyLower c.name == pyLower commodity_name) y ys hy'] at h
      rw [updateCommodities, if_neg hy]
      rw [find?_cons_neg (fun c : Commodity => pyLower c.name == pyLower commodity_name) y
        (updateCommodities commodity_name na np pa pp ys) hy']
      exact ih h

theorem _update_mandi_commodity_mirror (m : Mandi) (commodity_name : String) (na : ℤ)
    (np : ℝ) (pa : ℤ) (pp : ℝ) :
    mirrorOK (_update_mandi_commodity m commodity_name na np pa pp) commodity_name := by
  rcases hf : m.commodities.find? (fun c => pyLower c.name == pyLower commodity_name)
    with _ | c0
  · simp only [_update_mandi_commodity, hf]
    by_cases hc : (pyLower m.commodity == pyLower commodity_name) = true
    · rw [if_pos hc]
      intro c hc' _
      have hc2 : m.commodities.find? (fun c => pyLower c.name == pyLower commodity_name) =
          some c := hc'
      rw [hf] at hc2
      exact Option.noConfusion hc2
    · rw [if_neg hc]
      intro c hc' _
      have hc2 : m.commodities.find? (fun c => pyLower c.name == pyLower commodity_name) =
          some c := hc'
      rw [hf] at hc2
      exact Option.noConfusion hc2
  · simp only [_update_mandi_commodity, hf]
    have hupd := find?_updateCommodities commodity_name na np pa pp m.commodities c0 hf
    by_cases hprim : c0.isPrimary = true
    · rw [if_pos hprim]
      intro c hc' _
      have hc2 : (updateCommodities commodity_name na np pa pp m.commodities).find?
          (fun c => pyLower c.name == pyLower commodity_name) = some c := hc'
      rw [hupd] at hc2
      obtain rfl := Option.some.inj hc2
      exact ⟨rfl, rfl, rfl, rfl, rfl⟩
    · rw [if_neg hprim]
      intro c hc' hcprim
      have hc2 : (updateCommodities commodity_name na np pa pp m.commodities).find?
          (fun c => pyLower c.name == pyLower commodity_name) = some c := hc'
      rw [hupd] at hc2
      obtain rfl := Option.some.inj hc2
      exact absurd (show c0.isPrimary = true from hcprim) hprim

theorem mirrorOK_appendMandiHistories (m : Mandi) (date : String) (price : ℝ) (arr : ℤ)
    (cname : String) (h : mirrorOK m cname) :
    mirrorOK (appendMandiHistories m date price arr) cname := h

theorem append_market_update_ok_mandis (s : MarketState) (mid cname : String) (a : ℤ)
    (ctx : Option String) (date : String) (r : UpdateResult) (s' : MarketState)
    (h : append_market_update s mid cname a ctx date = (Except.ok r, s')) :
    ∃ i m, enumFind (fun m2 => m2.id == mid) s.mandis = some (i, m) ∧
      ∃ na np pa pp, s'.mandis =
        s.mandis.set i (appendMandiHistories (_update_mandi_commodity m cname na np pa pp)
          date np na) := by
  rcases hm : enumFind (fun m2 => m2.id == mid) s.mandis with _ | ⟨i, m⟩
  · simp only [append_market_update, hm] at h
    exact absurd (Prod.mk.inj h).1 (by simp)
  · rcases hc : get_commodity_from_mandi m cname with _ | c0
    · simp only [append_market_update, hm, hc] at h
      exact absurd (Prod.mk.inj h).1 (by simp)
    · simp only [append_market_update, hm, hc] at h
      obtain ⟨-, h2⟩ := Prod.mk.inj h
      exact ⟨i, m, hm, a, _, c0.arrivals, c0.currentPrice, by rw [← h2]⟩

theorem execute_transfer_ok_mandis (s : MarketState) (src dst cname : String) (q : ℤ)
    (date : String) (r : TransferResult) (s' : MarketState)
    (h : execute_transfer s src dst cname q date = (Except.ok r, s')) :
    ∃ i sm j dm,
      enumFind (fun m2 => m2.id == src) s.mandis = some (i, sm) ∧
      enumFind (fun m2 => m2.id == dst) s.mandis = some (j, dm) ∧
      ∃ sa sp spa spp da dp dpa dpp, s'.mandis =
        (s.mandis.set i (appendMandiHistories (_update_mandi_commodity sm cname sa sp spa spp)
          date sp sa)).set j
          (appendMandiHistories (_update_mandi_commodity dm cname da dp dpa dpp) date dp da) := by
  rcases hm : enumFind (fun m2 => m2.id == src) s.mandis with _ | ⟨i, sm⟩
  · simp only [execute_transfer, hm] at h
    exact absurd (Prod.mk.inj h).1 (by simp)
  · rcases hd : enumFind (fun m2 => m2.id == dst) s.mandis with _ | ⟨j, dm⟩
    · simp only [execute_transfer, hm, hd] at h
      exact absurd (Prod.mk.inj h).1 (by simp)
    · rcases hv : validate_transfer_input sm q cname with _ | err
      · rcases hc : get_commodity_from_mandi sm cname with _ | c0
        · simp only [execute_transfer, hm, hd, hv, hc] at h
          exact absurd (Prod.mk.inj h).1 (by simp)
        · simp only [execute_transfer, hm, hd, hv, hc] at h
          obtain ⟨-, h2⟩ := Prod.mk.inj h
          exact ⟨i, sm, j, dm, hm, hd, _, _, _, _, _, _, _, _, by rw [← h2]⟩
      · simp only [execute_transfer, hm, hd, hv] at h
        exact absurd (Prod.mk.inj h).1 (by simp)

/-- C4: after every successful `append_market_update` or `execute_transfer`,
the mandi stored at the updated market's position satisfies the
denormalization mirror: if the commodity record matched for the update has
`isPrimary = true`, the market-level `currentPrice`, `previousPrice`,
`arrivals`, `previousArrivals` and `baseSupply` equal that commodity's new
field values exactly (for transfers, independently at the source and the
destination position). -/
theorem C4_primary_mirror :
    (∀ s mid cname a ctx date r s',
      append_market_update s mid cname a ctx date = (Except.ok r, s') →
      ∀ i m, enumFind (fun m2 => m2.id == mid) s.mandis = some (i, m) →
      ∀ m', s'.mandis[i]? = some m' → mirrorOK m' cname) ∧
    (∀ s src dst cname q date r s',
      execute_transfer s src dst cname q date = (Except.ok r, s') →
      src ≠ dst →
      (∀ i sm, enumFind (fun m2 => m2.id == src) s.mandis = some (i, sm) →
        ∀ m', s'.mandis[i]? = some m' → mirrorOK m' cname) ∧
      (∀ j dm, enumFind (fun m2 => m2.id == dst) s.mandis = some (j, dm) →
        ∀ m', s'.mandis[j]? = some m' → mirrorOK m' cname)) := by
  constructor
  · intro s mid cname a ctx date r s' h i m hfind m' hm'
    obtain ⟨i0, m0, hfind0, na, np, pa, pp, hs'⟩ :=
      append_market_update_ok_mandis s mid cname a ctx date r s' h
    rw [hfind0] at hfind
    obtain ⟨rfl, rfl⟩ := Prod.mk.inj (Option.some.inj hfind)
    rw [hs', List.getElem?_set_self (enumFind_spec _ _ _ _ hfind0).1] at hm'
    obtain rfl := Option.some.inj hm'
    exact mirrorOK_appendMandiHistories _ _ _ _ _
      (_update_mandi_commodity_mirror m0 cname na np pa pp)
  · intro s src dst cname q date r s' h hne
    obtain ⟨i0, sm0, j0, dm0, hsrc0, hdst0, sa, sp, spa, spp, da, dp, dpa, dpp, hs'⟩ :=
      execute_transfer_ok_mandis s src dst cname q date r s' h
    obtain ⟨hilen, higet, hipred⟩ := enumFind_spec _ _ _ _ hsrc0
    obtain ⟨hjlen, hjget, hjpred⟩ := enumFind_spec _ _ _ _ hdst0
    have hij : i0 ≠ j0 := by
      intro hij
      rw [hij, hjget] at higet
      have heq : dm0 = sm0 := Option.some.inj higet
      have h1 : sm0.id = src := by simpa using hipred
      have h2 : dm0.id = dst := by simpa using hjpred
      rw [heq] at h2
      exact hne (h1 ▸ h2)
    constructor
    · intro i sm hfind m' hm'
      rw [hsrc0] at hfind
      obtain ⟨rfl, rfl⟩ := Prod.mk.inj (Option.some.inj hfind)
      rw [hs', List.getElem?_set_ne (fun hj => hij hj.symm),
        List.getElem?_set_self hilen] at hm'
      obtain rfl := Option.some.inj hm'
      exact mirrorOK_appendMandiHistories _ _ _ _ _
        (_update_mandi_commodity_mirror sm0 cname sa sp spa spp)
    · intro j dm hfind m' hm'
      rw [hdst0] at hfind
      obtain ⟨rfl, rfl⟩ := Prod.mk.inj (Option.some.inj hfind)
      rw [hs', List.getElem?_set_self (by simpa using hjlen)] at hm'
      obtain rfl := Option.some.inj hm'
      exact mirrorOK_appendMandiHistories _ _ _ _ _
        (_update_mandi_commodity_mirror dm0 cname da dp dpa dpp)

def onionCommodity : Commodity :=
  { name := "Onion", isPrimary := true
    currentPrice := 10, previousPrice := 10
    arrivals := 100, previousArrivals := 100
    baseDemand := 100, baseSupply := 100, volatility := 0 }

/-- A market whose commodities array holds a primary "Onion" record. -/
def mandiC : Mandi := { mandiA with id := "C", commodities := [onionCommodity] }

def c4s0 : MarketState := { mandis := [mandiC], history := [] }

theorem C4_primary_mirror_witness :
    ∃ r s' m', append_market_update c4s0 "C" "onion" 50 none "d" = (Except.ok r, s') ∧
      s'.mandis[0]? = some m' ∧ mirrorOK m' "onion" := by
  have hfind : enumFind (fun m2 => m2.id == "C") c4s0.mandis = some (0, mandiC) := by
    simp [c4s0, mandiC, mandiA, enumFind]
  refine ⟨_, _, _, rfl, rfl, ?_⟩
  exact C4_primary_mirror.1 c4s0 "C" "onion" 50 none "d" _ _ rfl 0 mandiC hfind _ rfl

/-! ## C10 — transfer to a destination without the commodity -/

theorem get_commodity_none (m : Mandi) (cname : String)
    (h : get_commodity_from_mandi m cname = none) :
    m.commodities.find? (fun c => pyLower c.name == pyLower cname) = none ∧
    (pyLower m.commodity == pyLower cname) = false := by
  rcases hf : m.commodities.find? (fun c => pyLower c.name == pyLower cname) with _ | c0
  · rw [get_commodity_from_mandi, hf] at h
    by_cases hc : (pyLower m.commodity == pyLower cname) = true
    · rw [if_pos hc] at h
      exact Option.noConfusion h
    · exact ⟨hf, eq_false_of_ne_true hc⟩
  · rw [get_commodity_from_mandi, hf] at h
    exact Option.noConfusion h

theorem _update_mandi_commodity_no_match (m : Mandi) (cname : String) (na : ℤ) (np : ℝ)
    (pa : ℤ) (pp : ℝ)
    (h1 : m.commodities.find? (fun c => pyLower c.name == pyLower cname) = none)
    (h2 : (pyLower m.commodity == pyLower cname) = false) :
    _update_mandi_commodity m cname na np pa pp = m := by
  simp [_update_mandi_commodity, h1, h2]

/-- C10: a transfer whose destination has no commodity matching the name
(neither in its commodities array nor as its mandi-level commodity,
case-insensitively) still succeeds when the source side validates: the
appended `transfer_execution` record reports destination
`previousArrivals = 0` and `newArrivals = quantity`, with the
destination's demand defaulted to the quantity and its price defaulted to
the source commodity's price, and the stored destination mandi differs
from its previous value only by the appended priceHistory/arrivalsHistory
points — no commodity record or market-level price/arrivals field changes,
so the transferred quantity is not reflected in its stored arrivals. -/
theorem C10_transfer_missing_dest_commodity
    (s : MarketState) (src dst cname : String) (q : ℤ) (date : String)
    (i : ℕ) (sm : Mandi) (j : ℕ) (dm : Mandi) (sc : Commodity)
    (hsrc : enumFind (fun m2 => m2.id == src) s.mandis = some (i, sm))
    (hdst : enumFind (fun m2 => m2.id == dst) s.mandis = some (j, dm))
    (hsc : get_commodity_from_mandi sm cname = some sc)
    (hdc : get_commodity_from_mandi dm cname = none)
    (hq : 0 < q) (hqa : q ≤ sc.arrivals) :
    ∃ r, (execute_transfer s src dst cname q date).1 = Except.ok r ∧
      r.transfer.destination.previousArrivals = 0 ∧
      r.transfer.destination.newArrivals = q ∧
      r.transfer.destination.previousPrice = sc.currentPrice ∧
      r.transfer.destination.newPrice = compute_new_price sc.currentPrice (q : ℝ) (q : ℝ) ∧
      (execute_transfer s src dst cname q date).2.history =
        s.history ++ [HistoryEntry.transfer_execution r.transfer] ∧
      (execute_transfer s src dst cname q date).2.mandis[j]? = some
        { dm with
          priceHistory := dm.priceHistory ++
            [{ date := date, price := compute_new_price sc.currentPrice (q : ℝ) (q : ℝ) }]
          arrivalsHistory := dm.arrivalsHistory ++ [{ date := date, arrivals := q }] } := by
  have hv : validate_transfer_input sm q cname = none := by
    rw [validate_transfer_input, if_neg (not_le.mpr hq), hsc]
    show (if q > sc.arrivals then some "Insufficient supply" else none) = none
    rw [if_neg (not_lt.mpr hqa)]
  have hjlen := (enumFind_spec _ _ _ _ hdst).1
  have hprice : compute_new_price sc.currentPrice ((0 + q : ℤ) : ℝ)
      (if (q : ℝ) ≤ 0 then (q : ℝ) else (q : ℝ)) =
      compute_new_price sc.currentPrice (q : ℝ) (q : ℝ) := by
    rw [ite_self, zero_add]
  have hupd := _update_mandi_commodity_no_match dm cname (0 + q)
    (compute_new_price sc.currentPrice ((0 + q : ℤ) : ℝ)
      (if (q : ℝ) ≤ 0 then (q : ℝ) else (q : ℝ))) 0 sc.currentPrice
    (get_commodity_none dm cname hdc).1 (get_commodity_none dm cname hdc).2
  rcases hr : (execute_transfer s src dst cname q date).1 with e | r
  · exfalso
    simp only [execute_transfer, hsrc, hdst, hv, hsc] at hr
    exact Except.noConfusion hr
  · have hr2 := hr
    simp only [execute_transfer, hsrc, hdst, hv, hsc, hdc] at hr2
    obtain rfl := Except.ok.inj hr2
    refine ⟨_, rfl, rfl, (show (0 : ℤ) + q = q by omega), rfl, hprice, ?_, ?_⟩
    · simp only [execute_transfer, hsrc, hdst, hv, hsc, hdc]
    · simp only [execute_transfer, hsrc, hdst, hv, hsc, hdc]
      rw [List.getElem?_set_self (by simpa using hjlen), hupd]
      rw [appendMandiHistories, hprice]
      rw [show (0 + q : ℤ) = q from by omega]

/-- The commodity record `get_commodity_from_mandi` synthesizes from
`mandiA`'s mandi-level fields for the name "onion". -/
def onionFallbackA : Commodity :=
  { name := "onion", isPrimary := true
    currentPrice := 10, previousPrice := 10
    arrivals := 100, previousArrivals := 100
    baseDemand := 100, baseSupply := 100, volatility := 0 }

theorem C10_transfer_missing_dest_commodity_witness :
    ∃ r, (execute_transfer { mandis := [mandiA, mandiB], history := [] }
        "A" "B" "onion" 10 "d").1 = Except.ok r ∧
      r.transfer.destination.previousArrivals = 0 ∧
      r.transfer.destination.newArrivals = 10 := by
  obtain ⟨r, h1, h2, h3, -⟩ := C10_transfer_missing_dest_commodity
    { mandis := [mandiA, mandiB], history := [] } "A" "B" "onion" 10 "d"
    0 mandiA 1 mandiB onionFallbackA rfl rfl rfl rfl (by norm_num)
    (by norm_num [onionFallbackA])
  exact ⟨r, h1, h2, h3⟩

/-! ## C2 — append-only history -/

theorem applyOp_ok_step (s : MarketState) (op : Op) (u : Unit)
    (h : (applyOp s op).1 = Except.ok u) :
    ∃ e, (applyOp s op).2.history = s.history ++ [e] ∧ e.kind = op.kind := by
  cases op with
  | update mid c a ctx date =>
    rcases hr : (append_market_update s mid c a ctx date).1 with e0 | r
    · exfalso
      simp only [applyOp] at h
      rw [hr] at h
      exact Except.noConfusion h
    · refine ⟨HistoryEntry.market_update r.update, ?_, rfl⟩
      show (append_market_update s mid c a ctx date).2.history = _
      exact append_market_update_ok s mid c a ctx date r hr
  | transfer src dst c q date =>
    rcases hr : (execute_transfer s src dst c q date).1 with e0 | r
    · exfalso
      simp only [applyOp] at h
      rw [hr] at h
      exact Except.noConfusion h
    · refine ⟨HistoryEntry.transfer_execution r.transfer, ?_, rfl⟩
      show (execute_transfer s src dst c q date).2.history = _
      exact execute_transfer_ok s src dst c q date r hr

theorem runOps_history (ops : List Op) (s s' : MarketState)
    (h : runOps s ops = some s') :
    ∃ new, s'.history = s.history ++ new ∧ new.length = ops.length ∧
      ∀ i, i < ops.length → (new[i]?.map HistoryEntry.kind) = (ops[i]?.map Op.kind) := by
  induction ops generalizing s with
  | nil =>
    obtain rfl : s = s' := by simpa [runOps] using h
    exact ⟨[], by simp, rfl, fun i hi => absurd hi (by simp)⟩
  | cons op rest ih =>
    rw [runOps] at h
    rcases hap : applyOp s op with ⟨r, s2⟩
    rw [hap] at h
    cases r with
    | error e => exact Option.noConfusion h
    | ok u =>
      obtain ⟨e, he, hkind⟩ := applyOp_ok_step s op u (by rw [hap])
      rw [hap] at he
      obtain ⟨new2, h1, h2, h3⟩ := ih s2 h
      refine ⟨e :: new2, ?_, by simp [h2], ?_⟩
      · rw [h1, he, List.append_assoc, List.singleton_append]
      · intro i hi
        cases i with
        | zero => simp [hkind]
        | succ k =>
          simp only [List.getElem?_cons_succ]
          exact h3 k (by simpa using hi)

theorem runOps_append_split (l1 l2 : List Op) (s : MarketState) :
    runOps s (l1 ++ l2) = (runOps s l1).bind (fun s1 => runOps s1 l2) := by
  induction l1 generalizing s with
  | nil => simp [runOps]
  | cons op rest ih =>
    rw [List.cons_append]
    rw [runOps]
    rcases hap : applyOp s op with ⟨r, s2⟩
    cases r with
    | ok u =>
      have hl : runOps s (op :: rest) = runOps s2 rest := by
        rw [runOps, hap]
      rw [hl]
      show runOps s2 (rest ++ l2) = (runOps s2 rest).bind fun s1 => runOps s1 l2
      exact ih s2
    | error e =>
      have hl : runOps s (op :: rest) = none := by
        rw [runOps, hap]
      rw [hl]
      rfl

/-- C2: starting from a freshly reset state, after `N` successful
update/transfer operations the history log has length exactly `N`, the
`i`-th entry's kind matches the `i`-th operation (each successful
`append_market_update` appends exactly one `market_update` entry, each
successful `execute_transfer` exactly one `transfer_execution` entry, in
insertion order), and the history after any prefix of the run is a prefix
of the final history — previously written entries never change. -/
theorem C2_history_append_only (s0 : MarketState) (h0 : s0.history = [])
    (ops : List Op) (s : MarketState) (h : runOps s0 ops = some s) :
    s.history.length = ops.length ∧
    (∀ i, i < ops.length → (s.history[i]?.map HistoryEntry.kind) = (ops[i]?.map Op.kind)) ∧
    (∀ ops₁ ops₂ s₁, ops = ops₁ ++ ops₂ → runOps s0 ops₁ = some s₁ →
      ∃ rest, s.history = s₁.history ++ rest) := by
  obtain ⟨new, h1, h2, h3⟩ := runOps_history ops s0 s h
  rw [h0, List.nil_append] at h1
  refine ⟨by rw [h1]; exact h2, ?_, ?_⟩
  · intro i hi
    rw [h1]
    exact h3 i hi
  · intro ops1 ops2 s1 hsplit hrun1
    subst hsplit
    rw [runOps_append_split, hrun1] at h
    obtain ⟨new2, g1, -, -⟩ := runOps_history ops2 s1 s h
    exact ⟨new2, g1⟩

def c2s0 : MarketState := { mandis := [mandiA, mandiB], history := [] }

def c2ops : List Op :=
  [Op.update "A" "onion" 50 none "d1", Op.transfer "A" "B" "onion" 10 "d2"]

theorem C2_history_append_only_witness :
    ∃ s, runOps c2s0 c2ops = some s ∧ s.history.length = c2ops.length ∧
      (∀ i, i < c2ops.length →
        (s.history[i]?.map HistoryEntry.kind) = (c2ops[i]?.map Op.kind)) := by
  obtain ⟨s, hs⟩ : ∃ s, runOps c2s0 c2ops = some s := ⟨_, rfl⟩
  have h := C2_history_append_only c2s0 rfl c2ops s hs
  exact ⟨s, hs, h.1, h.2.1⟩
